import Mathlib

/-!
Verification of the availability & slot-conflict engine of the
PublicBookingCalendar repository (Express/TypeScript backend).

Embedding conventions:
* Wall-clock times of day are minutes since midnight (`Nat`).  The backend
  stores times as zero-padded `HH:mm` strings; lexicographic comparison of
  such strings agrees with numeric comparison of the corresponding minute
  counts, so string comparisons in the source are embedded as `Nat`
  comparisons.  `format(t, 'HH:mm')` of a timestamp is its minute count
  modulo 1440.
* Dates, professional ids, service ids, booking ids and user ids are opaque
  `Nat` atoms.  Client emails are `String`s; the routes lowercase the email
  with `toLowerCase()` both when looking a user up and when inserting one,
  so the embedded request carries the already-lowercased email.
* The store (PostgreSQL) is a record of lists of rows.  Each SQL statement
  in the source is one atomic step on the store; the routes under
  examination issue their statements with plain `db.query`/`db.queryOne`
  (no `db.transaction`), so a multi-statement handler is a sequence of
  separate atomic steps.
* The embedding models a single tenant: `requireTenant` scopes every route
  to one tenant and every `tenant_id` filter in the relevant queries is
  then vacuous, so `tenant_id` columns are omitted.
* The `while` loop of the slot generators is embedded with explicit fuel;
  `none` models a run that does not terminate within the given fuel.
-/

/-- A half-open booked interval `[start_time, end_time)` as selected by
`SELECT start_time, end_time FROM bookings WHERE professional_id = $1 AND
date = $2 AND status NOT IN ('cancelled')`. -/
structure BookedInterval where
  start_time : Nat
  end_time : Nat
deriving DecidableEq, Repr

/-- A row of `availability_rules` restricted to the fields the slot
generators read (`rule.start_time`, `rule.end_time`); the SQL query has
already filtered on `professional_id`, `day_of_week` and
`is_active = true`. -/
structure AvailabilityRule where
  start_time : Nat
  end_time : Nat
deriving DecidableEq, Repr

/-- A derived slot as pushed by the generation loop:
`{ start_time: slotStart, end_time: slotEnd, available: !isBooked }`. -/
structure Slot where
  start_time : Nat
  end_time : Nat
  available : Bool
deriving DecidableEq, Repr

/-- A row of `availability_exceptions` restricted to the fields returned by
`SELECT * FROM availability_exceptions WHERE professional_id = $1 AND
date = $2` that are relevant to slot generation.  The handlers read only
`is_available`; `start_time`/`end_time` are carried because the row has
them (`-- only if is_available = true` in the migration). -/
structure AvailabilityException where
  is_available : Bool
  start_time : Option Nat
  end_time : Option Nat
deriving DecidableEq, Repr

/-- Embedding of `slotStart < booking.end_time && slotEnd > booking.start_time`
— the half-open overlap test used by the `isBooked` check (string
comparison on `HH:mm` agrees with numeric comparison). -/
def isBookedCheck (slotStart slotEnd : Nat) (bookings : List BookedInterval) : Bool :=
  bookings.any fun booking =>
    decide (slotStart < booking.end_time) && decide (slotEnd > booking.start_time)

/-- The `while` loop of `GET /api/availability/slots/:professionalId`
(src/unnamed/part_006 lines 182-202); `GET /api/public/slots`
(public.routes.ts lines 142-162) contains the token-identical loop.

  while (isBefore(addMinutes(currentTime, durationMinutes), endTime)
         || format(addMinutes(currentTime, durationMinutes), 'HH:mm') === rule.end_time) {
    ... push { start_time: slotStart, end_time: slotEnd, available: !isBooked } ...
    currentTime = addMinutes(currentTime, durationMinutes);
    if (isAfter(currentTime, endTime) || format(currentTime, 'HH:mm') === rule.end_time) break;
  }

`cur` is `currentTime` in minutes since midnight of the queried date (it
may exceed 1440 after additions: the underlying `Date` carries the day),
`endM` is the parse of `rule.end_time` (hence `endM < 1440`), and
`format(_, 'HH:mm')` is `% 1440`.  Fuel models the unbounded loop; `none`
means the fuel was exhausted before the loop exited. -/
def slotLoop (bookings : List BookedInterval) (durationMinutes endM : Nat) :
    Nat → Nat → Option (List Slot)
  | 0, _ => none
  | fuel + 1, cur =>
    if cur + durationMinutes < endM ∨ (cur + durationMinutes) % 1440 = endM then
      let slotStart := cur % 1440
      let slotEnd := (cur + durationMinutes) % 1440
      let slot : Slot := ⟨slotStart, slotEnd, !isBookedCheck slotStart slotEnd bookings⟩
      let next := cur + durationMinutes
      if endM < next ∨ next % 1440 = endM then
        some [slot]
      else
        (slotLoop bookings durationMinutes endM fuel next).map (slot :: ·)
    else
      some []

/-- Embedding of the `for (const rule of rules)` iteration: runs the slot loop once per
rule, appending the produced slots in rule order. -/
def generateSlots (rules : List AvailabilityRule) (bookings : List BookedInterval)
    (durationMinutes fuel : Nat) : Option (List Slot) :=
  match rules with
  | [] => some []
  | rule :: rest => do
    let s ← slotLoop bookings durationMinutes rule.end_time fuel rule.start_time
    let others ← generateSlots rest bookings durationMinutes fuel
    pure (s ++ others)

/-- Handler `GET /api/availability/slots/:professionalId`
(src/unnamed/part_006 lines 122-206) after the store reads: if an exception row exists with
`is_available = false`, respond `[]`; if no rules, respond `[]`; otherwise
generate slots from all rules and respond with the full list (occupied
slots included, `available = false`). -/
def getAvailableSlots (exception : Option AvailabilityException)
    (rules : List AvailabilityRule) (bookings : List BookedInterval)
    (durationMinutes fuel : Nat) : Option (List Slot) :=
  match exception with
  | some e =>
    if !e.is_available then some [] else
      if rules.isEmpty then some [] else
        generateSlots rules bookings durationMinutes fuel
  | none =>
    if rules.isEmpty then some [] else
      generateSlots rules bookings durationMinutes fuel

/-- Handler `GET /api/public/slots` (public.routes.ts lines 104-168): identical
exception/rules/loop logic, followed by
`const availableSlots = slots.filter(s => s.available)` — the public
endpoint responds with the available slots only. -/
def publicAvailableSlots (exception : Option AvailabilityException)
    (rules : List AvailabilityRule) (bookings : List BookedInterval)
    (durationMinutes fuel : Nat) : Option (List Slot) :=
  (getAvailableSlots exception rules bookings durationMinutes fuel).map
    (List.filter (fun s => s.available))

/-- Recomputes a slot's `available` flag against a booking set, leaving
start and end untouched. -/
def reflagSlot (bookings : List BookedInterval) (s : Slot) : Slot :=
  { s with available := !isBookedCheck s.start_time s.end_time bookings }

/-- Embedding of `duration_minutes: z.number().min(5).max(480)` — the bound of
`createServiceSchema` (the only validation of a service duration in the
system; the slots endpoints use the stored value unchecked). -/
def durationMinutesValid (n : Nat) : Bool :=
  decide (5 ≤ n) && decide (n ≤ 480)

/-- The `booking_status` enum of the `bookings` table. -/
inductive BookingStatus
  | pending
  | confirmed
  | completed
  | cancelled
  | no_show
deriving DecidableEq, Repr

/-- A row of `bookings` restricted to the columns the examined handlers
read or write (timestamps, payment and note columns are carried along by
the SQL but never branch-relevant). -/
structure BookingRow where
  id : Nat
  professional_id : Nat
  service_id : Nat
  client_id : Option Nat
  date : Nat
  start_time : Nat
  end_time : Nat
  status : BookingStatus
deriving DecidableEq, Repr

/-- A row of `users` restricted to the columns the guest-creation path
reads (`SELECT id FROM users WHERE email = $1 ...`; the insert fixes
`role = 'client'`). -/
structure UserRow where
  id : Nat
  email : String
deriving DecidableEq, Repr

/-- A row of `services` restricted to what the booking handlers read:
the staff route looks a service up by id, the public route additionally
requires `is_active = true`. -/
structure ServiceRow where
  id : Nat
  is_active : Bool
deriving DecidableEq, Repr

/-- The relational store as seen by the booking routes (single tenant). -/
structure Store where
  users : List UserRow
  services : List ServiceRow
  bookings : List BookingRow
deriving DecidableEq, Repr

/-- The conflict query shared by booking creation and reschedule:

  SELECT id FROM bookings
  WHERE professional_id = $1 AND date = $2 AND status NOT IN ('cancelled')
  AND (start_time < $4 AND end_time > $3)

with `$3 = start_time`, `$4 = end_time` of the request: a row conflicts
iff it is a non-cancelled booking of the same professional on the same
date whose half-open interval overlaps the requested one. -/
def hasConflict (bookings : List BookingRow) (pid date s e : Nat) : Bool :=
  bookings.any fun b =>
    decide (b.professional_id = pid) && decide (b.date = date) &&
    decide (b.status ≠ BookingStatus.cancelled) &&
    decide (b.start_time < e) && decide (b.end_time > s)

/-- A booking-creation request body (`createBookingSchema` /
`createPublicBookingSchema`), plus `req.user?.id` for the staff route's
`optionalAuth`.  `client_email` is carried already lowercased: the route
applies `toLowerCase()` at both of its uses. -/
structure ReserveRequest where
  professional_id : Nat
  service_id : Nat
  date : Nat
  start_time : Nat
  end_time : Nat
  userId : Option Nat
  client_email : Option String
deriving DecidableEq, Repr

/-- Outcome of a booking-creation handler. -/
inductive CreateResult
  | serviceNotFound
  | slotConflict
  | created (b : BookingRow)
  | insertFailed
deriving DecidableEq, Repr

/-- Handler `POST /api/bookings` (booking.routes.ts lines 133-207) as a sequence
of atomic store steps:
1. service lookup (`SELECT price, currency FROM services WHERE id = $1 AND
   tenant_id = $2`): 404 if absent;
2. conflict query: 409 `CONFLICT` if a row matches;
3. `clientId = req.user?.id || null`; if null and `client_email` given,
   look the user up by email and otherwise `INSERT` a guest user row;
4. `INSERT INTO bookings ... 'pending' ... RETURNING *`.
The handler wraps no transaction around these statements ( plain
`db.query` on the pool).  `bookingInsertOk` models whether the final
insert statement succeeds at the store; when it fails the handler throws
and the earlier statements stay committed. -/
def createBooking (st : Store) (r : ReserveRequest) (newUserId newBookingId : Nat)
    (bookingInsertOk : Bool) : CreateResult × Store :=
  if !(st.services.any fun s => decide (s.id = r.service_id)) then
    (.serviceNotFound, st)
  else if hasConflict st.bookings r.professional_id r.date r.start_time r.end_time then
    (.slotConflict, st)
  else
    let resolved : Option Nat × List UserRow :=
      match r.userId with
      | some uid => (some uid, st.users)
      | none =>
        match r.client_email with
        | none => (none, st.users)
        | some email =>
          match st.users.find? (fun u => u.email == email) with
          | some u => (some u.id, st.users)
          | none => (some newUserId, st.users ++ [⟨newUserId, email⟩])
    let st1 : Store := { st with users := resolved.2 }
    if bookingInsertOk then
      let b : BookingRow :=
        ⟨newBookingId, r.professional_id, r.service_id, resolved.1,
         r.date, r.start_time, r.end_time, .pending⟩
      (.created b, { st1 with bookings := st1.bookings ++ [b] })
    else
      (.insertFailed, st1)

/-- Row effect of `PATCH /api/bookings/:id` (booking.routes.ts lines
210-258) when the body supplies a `status`:
`UPDATE bookings SET status = $1 ... WHERE id = $k AND tenant_id = $k+1`.
The `WHERE` clause has no condition on the current status: any row with
the given id is updated, whatever state it is in.  (`updateBookingSchema`
admits every member of the status enum.) -/
def patchStatusRow (bid : Nat) (newStatus : BookingStatus) (b : BookingRow) : BookingRow :=
  if b.id = bid then { b with status := newStatus } else b

/-- Handler `PATCH /api/bookings/:id` with `status` present, lifted to the store. -/
def updateBookingStatus (st : Store) (bid : Nat) (newStatus : BookingStatus) : Store :=
  { st with bookings := st.bookings.map (patchStatusRow bid newStatus) }

/-- Row effect of `POST /api/bookings/:id/confirm` (lines 261-279):
`UPDATE bookings SET status = 'confirmed' WHERE id = $1 AND tenant_id = $2
AND status = 'pending'` — only a pending row is touched. -/
def confirmRow (bid : Nat) (b : BookingRow) : BookingRow :=
  if b.id = bid ∧ b.status = BookingStatus.pending then
    { b with status := .confirmed }
  else b

/-- Handler `POST /api/bookings/:id/confirm` lifted to the store. -/
def confirmBooking (st : Store) (bid : Nat) : Store :=
  { st with bookings := st.bookings.map (confirmRow bid) }

/-- Row effect of `POST /api/bookings/:id/cancel` (lines 282-307):
`UPDATE bookings SET status = 'cancelled', ... WHERE id = $1 AND
tenant_id = $2 AND status NOT IN ('cancelled', 'completed')` — the guard
excludes `cancelled` and `completed` but not `no_show`. -/
def cancelRow (bid : Nat) (b : BookingRow) : BookingRow :=
  if b.id = bid ∧ b.status ≠ BookingStatus.cancelled ∧
      b.status ≠ BookingStatus.completed then
    { b with status := .cancelled }
  else b

/-- Handler `POST /api/bookings/:id/cancel` lifted to the store. -/
def cancelBooking (st : Store) (bid : Nat) : Store :=
  { st with bookings := st.bookings.map (cancelRow bid) }

/-- Outcome of `POST /api/bookings/:id/reschedule`. -/
inductive RescheduleResult
  | notFound
  | slotConflict
  | rescheduled (b : BookingRow)
deriving DecidableEq, Repr

/-- Handler `POST /api/bookings/:id/reschedule` (booking.routes.ts lines 310-354):
look the booking up; run the conflict query at the new date/time with
`AND id != $5` (the booking's own row excluded); on success
`UPDATE bookings SET date = $3, start_time = $4, end_time = $5,
status = 'pending' WHERE id = $1 AND tenant_id = $2` — again with no
condition on the current status. -/
def rescheduleBooking (st : Store) (bid date s e : Nat) : RescheduleResult × Store :=
  match st.bookings.find? (fun b => decide (b.id = bid)) with
  | none => (.notFound, st)
  | some original =>
    let conflict := st.bookings.any fun b =>
      decide (b.professional_id = original.professional_id) && decide (b.date = date) &&
      decide (b.status ≠ BookingStatus.cancelled) && decide (b.id ≠ bid) &&
      decide (b.start_time < e) && decide (b.end_time > s)
    if conflict then (.slotConflict, st)
    else
      let upd : BookingRow → BookingRow := fun b =>
        if b.id = bid then
          { b with date := date, start_time := s, end_time := e, status := .pending }
        else b
      let st1 : Store := { st with bookings := st.bookings.map upd }
      (.rescheduled (upd original), st1)

/-!
Interleaving model for two concurrent `POST /bookings` requests on the
same store.  Each request performs two atomic store operations — the
conflict `SELECT` and the booking `INSERT` (each a single SQL statement,
hence atomic at the store) — with no transaction, lock or exclusion
constraint tying them together (the `bookings` table carries only the
`valid_booking_time CHECK` and ordinary indexes).  A schedule is the
order in which the two requests' pending operations hit the store.
-/

/-- Progress of one in-flight reservation request. -/
inductive ThreadPhase
  | ready
  | checked (ok : Bool)
  | committed
  | conflicted
deriving DecidableEq, Repr

/-- One in-flight request: its body and the booking id its insert will
use (the `uuid()` generated by the handler). -/
structure ThreadCtx where
  req : ReserveRequest
  bookingId : Nat
deriving DecidableEq, Repr

/-- The row a request's `INSERT` commits (status `'pending'`; the client
resolution is irrelevant to conflicts and elided as `none`). -/
def insertedRow (c : ThreadCtx) : BookingRow :=
  ⟨c.bookingId, c.req.professional_id, c.req.service_id, none,
   c.req.date, c.req.start_time, c.req.end_time, .pending⟩

/-- One atomic store operation of a request: its conflict `SELECT` if it
has not checked yet, else its `INSERT` (when the check saw no conflict)
or its 409 response (when it did).  A finished request does nothing. -/
def threadStep (bookings : List BookingRow) (c : ThreadCtx) (p : ThreadPhase) :
    List BookingRow × ThreadPhase :=
  match p with
  | .ready =>
    (bookings, .checked (!hasConflict bookings c.req.professional_id c.req.date
      c.req.start_time c.req.end_time))
  | .checked true => (bookings ++ [insertedRow c], .committed)
  | .checked false => (bookings, .conflicted)
  | .committed => (bookings, .committed)
  | .conflicted => (bookings, .conflicted)

/-- Runs a schedule over two requests: `false` schedules the next atomic
operation of request 0, `true` that of request 1. -/
def runSchedule (c0 c1 : ThreadCtx) :
    List Bool → List BookingRow → ThreadPhase → ThreadPhase →
    List BookingRow × ThreadPhase × ThreadPhase
  | [], bookings, p0, p1 => (bookings, p0, p1)
  | false :: sched, bookings, p0, p1 =>
    let (bookings1, p0x) := threadStep bookings c0 p0
    runSchedule c0 c1 sched bookings1 p0x p1
  | true :: sched, bookings, p0, p1 =>
    let (bookings1, p1x) := threadStep bookings c1 p1
    runSchedule c0 c1 sched bookings1 p0 p1x

/-- Handler `POST /api/public/bookings` (public.routes.ts lines 172-254): same
step sequence, except the service lookup requires `is_active = true` and
the client is always resolved from the mandatory `client_email` (find by
email, else insert a guest user). -/
def createPublicBooking (st : Store) (r : ReserveRequest) (newUserId newBookingId : Nat)
    (bookingInsertOk : Bool) : CreateResult × Store :=
  if !(st.services.any fun s => decide (s.id = r.service_id) && s.is_active) then
    (.serviceNotFound, st)
  else if hasConflict st.bookings r.professional_id r.date r.start_time r.end_time then
    (.slotConflict, st)
  else
    let resolved : Option Nat × List UserRow :=
      match r.client_email with
      | none => (none, st.users)
      | some email =>
        match st.users.find? (fun u => u.email == email) with
        | some u => (some u.id, st.users)
        | none => (some newUserId, st.users ++ [⟨newUserId, email⟩])
    let st1 : Store := { st with users := resolved.2 }
    if bookingInsertOk then
      let b : BookingRow :=
        ⟨newBookingId, r.professional_id, r.service_id, resolved.1,
         r.date, r.start_time, r.end_time, .pending⟩
      (.created b, { st1 with bookings := st1.bookings ++ [b] })
    else
      (.insertFailed, st1)

/-! ### Helper lemmas about the slot generation loop -/

lemma isBookedCheck_nil (s e : Nat) : isBookedCheck s e [] = false := rfl

lemma slotLoop_eq_reflag (bks : List BookedInterval) (dur endM : Nat) :
    ∀ fuel cur, slotLoop bks dur endM fuel cur =
      Option.map (List.map (reflagSlot bks)) (slotLoop [] dur endM fuel cur) := by
  intro fuel
  induction fuel with
  | zero => intro cur; rfl
  | succ fuel ih =>
    intro cur
    simp only [slotLoop]
    split
    · split
      · simp [reflagSlot, isBookedCheck]
      · rw [ih]
        cases slotLoop [] dur endM fuel (cur + dur) with
        | none => simp
        | some l => simp [reflagSlot, isBookedCheck]
    · rfl

lemma generateSlots_eq_reflag (rules : List AvailabilityRule) (bks : List BookedInterval)
    (dur fuel : Nat) :
    generateSlots rules bks dur fuel =
      Option.map (List.map (reflagSlot bks)) (generateSlots rules [] dur fuel) := by
  induction rules with
  | nil => rfl
  | cons rule rest ih =>
    simp only [generateSlots]
    rw [slotLoop_eq_reflag, ih]
    cases slotLoop [] dur rule.end_time fuel rule.start_time with
    | none => rfl
    | some s =>
      cases generateSlots rest [] dur fuel with
      | none => rfl
      | some o => simp

lemma getAvailableSlots_eq_reflag (ex : Option AvailabilityException)
    (rules : List AvailabilityRule) (bks : List BookedInterval) (dur fuel : Nat) :
    getAvailableSlots ex rules bks dur fuel =
      Option.map (List.map (reflagSlot bks)) (getAvailableSlots ex rules [] dur fuel) := by
  cases ex with
  | none =>
    simp only [getAvailableSlots]
    split
    · rfl
    · exact generateSlots_eq_reflag rules bks dur fuel
  | some e =>
    simp only [getAvailableSlots]
    split
    · rfl
    · split
      · rfl
      · exact generateSlots_eq_reflag rules bks dur fuel

lemma mem_slotLoop_available (bks : List BookedInterval) (dur endM fuel cur : Nat)
    (l : List Slot) (h : slotLoop bks dur endM fuel cur = some l) :
    ∀ sl ∈ l, sl.available = !isBookedCheck sl.start_time sl.end_time bks := by
  have hre := slotLoop_eq_reflag bks dur endM fuel cur
  rw [h] at hre
  cases hb : slotLoop [] dur endM fuel cur with
  | none => rw [hb] at hre; simp at hre
  | some l0 =>
    rw [hb] at hre
    simp only [Option.map_some', Option.some.injEq] at hre
    subst hre
    intro sl hsl
    rw [List.mem_map] at hsl
    obtain ⟨s0, _, rfl⟩ := hsl
    rfl

lemma mem_generateSlots_available (rules : List AvailabilityRule)
    (bks : List BookedInterval) (dur fuel : Nat) (l : List Slot)
    (h : generateSlots rules bks dur fuel = some l) :
    ∀ sl ∈ l, sl.available = !isBookedCheck sl.start_time sl.end_time bks := by
  have hre := generateSlots_eq_reflag rules bks dur fuel
  rw [h] at hre
  cases hb : generateSlots rules [] dur fuel with
  | none => rw [hb] at hre; simp at hre
  | some l0 =>
    rw [hb] at hre
    simp only [Option.map_some', Option.some.injEq] at hre
    subst hre
    intro sl hsl
    rw [List.mem_map] at hsl
    obtain ⟨s0, _, rfl⟩ := hsl
    rfl

lemma slotLoop_slot_bounds (bks : List BookedInterval) (dur endM : Nat)
    (hdur1 : 1 ≤ dur) (hdur2 : dur ≤ 1439) (hend : endM < 1440) :
    ∀ fuel cur, cur ≤ endM → ∀ l, slotLoop bks dur endM fuel cur = some l →
      ∀ sl ∈ l, sl.end_time - sl.start_time = dur ∧ sl.end_time ≤ endM := by
  intro fuel
  induction fuel with
  | zero => intro cur _ l h; simp [slotLoop] at h
  | succ fuel ih =>
    intro cur hcur l h
    simp only [slotLoop] at h
    split at h
    · rename_i hcond
      split at h
      · rename_i hbreak
        simp only [Option.some.injEq] at h
        subst h
        intro sl hsl
        simp only [List.mem_singleton] at hsl
        subst hsl
        constructor <;> simp only <;> omega
      · rename_i hbreak
        cases hrec : slotLoop bks dur endM fuel (cur + dur) with
        | none => rw [hrec] at h; simp at h
        | some l0 =>
          rw [hrec] at h
          simp only [Option.map_some', Option.some.injEq] at h
          subst h
          intro sl hsl
          rcases List.mem_cons.mp hsl with hsl | hsl
          · subst hsl
            constructor <;> simp only <;> omega
          · exact ih (cur + dur) (by omega) l0 hrec sl hsl
    · simp only [Option.some.injEq] at h
      subst h
      intro sl hsl
      simp at hsl

lemma slotLoop_isSome_of_fuel (bks : List BookedInterval) (dur endM : Nat) :
    ∀ fuel cur, 1 ≤ fuel → endM < cur + dur * fuel →
      (slotLoop bks dur endM fuel cur).isSome = true := by
  intro fuel
  induction fuel with
  | zero => intro cur h; omega
  | succ fuel ih =>
    intro cur _ hbound
    simp only [slotLoop]
    split
    · split
      · simp
      · rename_i hcond hbreak
        cases fuel with
        | zero =>
          exfalso
          rw [Nat.mul_one] at hbound
          omega
        | succ n =>
          have hb2 : endM < cur + dur + dur * (n + 1) := by
            rw [Nat.mul_succ dur (n + 1)] at hbound
            omega
          have := ih (cur + dur) (by omega) hb2
          cases hx : slotLoop bks dur endM (n + 1) (cur + dur) with
          | none => rw [hx] at this; simp at this
          | some l => simp
    · simp

lemma exists_fuel_slotLoop_isSome (bks : List BookedInterval) (dur endM cur : Nat)
    (hdur : 1 ≤ dur) :
    ∃ fuel, (slotLoop bks dur endM fuel cur).isSome = true := by
  refine ⟨endM + 1, slotLoop_isSome_of_fuel bks dur endM (endM + 1) cur (by omega) ?_⟩
  have h1 : endM + 1 ≤ dur * (endM + 1) := Nat.le_mul_of_pos_left _ hdur
  omega

lemma slotLoop_zero_duration (bks : List BookedInterval) (endM cur : Nat)
    (hlt : cur < endM) (hend : endM < 1440) :
    ∀ fuel, slotLoop bks 0 endM fuel cur = none := by
  intro fuel
  induction fuel with
  | zero => rfl
  | succ fuel ih =>
    have hcond : cur < endM ∨ cur % 1440 = endM := Or.inl hlt
    have hbreak : ¬(endM < cur ∨ cur % 1440 = endM) := by omega
    simp only [slotLoop, Nat.add_zero, ih, Option.map_none', if_pos hcond, if_neg hbreak]

/-! ### Claim theorems: slot generation -/

/-- C3 (code evaluation at the failing input): a `DateException` with
`is_available = true` and override times 10:00-11:00 present does NOT
replace the weekly rule 09:00-12:00 as the day's bookable window.  With a
60-minute service the handler still generates the three weekly-window
slots 09:00-10:00, 10:00-11:00, 11:00-12:00 — including slots outside the
override interval — and the result is identical to the one with no
exception at all: the route never reads the exception's
`start_time`/`end_time` (it only short-circuits on
`is_available = false`), although the migration documents them as special
hours (`true = special hours`). -/
theorem exception_override_ignored_eval :
    getAvailableSlots (some ⟨true, some 600, some 660⟩) [⟨540, 720⟩] [] 60 1000 =
      some [⟨540, 600, true⟩, ⟨600, 660, true⟩, ⟨660, 720, true⟩] ∧
    getAvailableSlots (some ⟨true, some 600, some 660⟩) [⟨540, 720⟩] [] 60 1000 =
      getAvailableSlots none [⟨540, 720⟩] [] 60 1000 := by
  constructor <;> decide

/-- C4 counterexample: the public slots endpoint removes unavailable
slots.  With weekly rule 09:00-12:00, duration 30 and one pending booking
10:00-10:30, `GET /api/public/slots` returns 5 entries (10:00-10:30
absent), while with no bookings it returns 6 — so the returned slot list
does not keep the same number of entries and the occupied entry is
dropped, contrary to the claim. -/
theorem public_slots_drop_unavailable :
    publicAvailableSlots none [⟨540, 720⟩] [⟨600, 630⟩] 30 1000 =
      some [⟨540, 570, true⟩, ⟨570, 600, true⟩, ⟨630, 660, true⟩,
            ⟨660, 690, true⟩, ⟨690, 720, true⟩] ∧
    publicAvailableSlots none [⟨540, 720⟩] [] 30 1000 =
      some [⟨540, 570, true⟩, ⟨570, 600, true⟩, ⟨600, 630, true⟩,
            ⟨630, 660, true⟩, ⟨660, 690, true⟩, ⟨690, 720, true⟩] ∧
    (publicAvailableSlots none [⟨540, 720⟩] [⟨600, 630⟩] 30 1000).map List.length ≠
      (publicAvailableSlots none [⟨540, 720⟩] [] 30 1000).map List.length := by
  refine ⟨by decide, by decide, by decide⟩

/-- C4 (amended): the staff availability endpoint
(`GET /api/availability/slots/:professionalId`) keeps occupied slots in
the response: its slot list for any booking set is the no-bookings list
with each entry's `available` flag recomputed (false exactly on overlap),
so it has the same number of entries with starts and ends unchanged.  The
public endpoint (`GET /api/public/slots`) then filters the same grid down
to the available entries only, so occupied slots are removed there. -/
theorem slots_preserve_grid_shape (ex : Option AvailabilityException)
    (rules : List AvailabilityRule) (bks : List BookedInterval) (dur fuel : Nat) :
    getAvailableSlots ex rules bks dur fuel =
      Option.map (List.map (reflagSlot bks)) (getAvailableSlots ex rules [] dur fuel) ∧
    (getAvailableSlots ex rules bks dur fuel).map List.length =
      (getAvailableSlots ex rules [] dur fuel).map List.length ∧
    publicAvailableSlots ex rules bks dur fuel =
      (getAvailableSlots ex rules bks dur fuel).map
        (List.filter (fun s => s.available)) := by
  refine ⟨getAvailableSlots_eq_reflag ex rules bks dur fuel, ?_, rfl⟩
  rw [getAvailableSlots_eq_reflag ex rules bks dur fuel]
  cases getAvailableSlots ex rules [] dur fuel with
  | none => rfl
  | some l => simp

/-- C5: with the single weekly rule 09:00-12:00 for the queried date's
day of week, a 30-minute service, no date exception and no bookings,
`getAvailableSlots` returns exactly the six slots
09:00-09:30, 09:30-10:00, 10:00-10:30, 10:30-11:00, 11:00-11:30,
11:30-12:00 in this order, all `available = true` — in particular the
final slot ending exactly at the window end is included (the
`format(...) === rule.end_time` disjunct of the loop condition admits
it). -/
theorem slot_scenario_monday_0900_1200 :
    getAvailableSlots none [⟨540, 720⟩] [] 30 1000 =
      some [⟨540, 570, true⟩, ⟨570, 600, true⟩, ⟨600, 630, true⟩,
            ⟨630, 660, true⟩, ⟨660, 690, true⟩, ⟨690, 720, true⟩] := by
  decide

/-- C6 counterexample: for `durationMinutes = 1450` (≥ 1, as the claim
allows) and window 01:00-01:10, the loop's boundary test
`format(addMinutes(currentTime, 1450), 'HH:mm') === rule.end_time`
compares clock strings modulo 24 hours and accepts the first step, so a
slot `{start: 01:00, end: 01:10}` is emitted whose recorded length is 10
minutes, not the requested 1450. -/
theorem slot_duration_wraparound_cex :
    slotLoop [] 1450 70 5 60 = some [⟨60, 70, true⟩] ∧
    ¬ ((Slot.mk 60 70 true).end_time - (Slot.mk 60 70 true).start_time = 1450) := by
  constructor <;> decide

/-- C6 (amended): for every rule window with `start_time < end_time`
(the `valid_time_range` CHECK) and `end_time < 1440` (a parsed `HH:mm`),
and every `durationMinutes` with `1 ≤ durationMinutes ≤ 1439` — which
covers the whole schema-permitted range 5..480 — every slot produced by
slot generation has recorded length exactly `durationMinutes` and ends at
or before its window's end: no partial or truncated trailing slot is
produced.  (For `durationMinutes ≥ 1440` the `HH:mm` comparison wraps
modulo 24h and the length conjunct fails, as the counterexample shows.) -/
theorem slot_duration_exact_within_day :
    ∀ (rules : List AvailabilityRule) (bks : List BookedInterval) (dur fuel : Nat)
      (l : List Slot), 1 ≤ dur → dur ≤ 1439 →
      (∀ r ∈ rules, r.start_time < r.end_time ∧ r.end_time < 1440) →
      generateSlots rules bks dur fuel = some l →
      ∀ sl ∈ l, sl.end_time - sl.start_time = dur ∧
        ∃ r ∈ rules, sl.end_time ≤ r.end_time := by
  intro rules bks dur fuel
  induction rules with
  | nil =>
    intro l _ _ _ h
    simp only [generateSlots, Option.some.injEq] at h
    subst h
    intro sl hsl
    simp at hsl
  | cons rule rest ih =>
    intro l hdur1 hdur2 hrules h
    cases hs : slotLoop bks dur rule.end_time fuel rule.start_time with
    | none => simp [generateSlots, hs] at h
    | some s =>
      cases ho : generateSlots rest bks dur fuel with
      | none => simp [generateSlots, hs, ho] at h
      | some o =>
        simp only [generateSlots, hs, ho, Option.bind_eq_bind, Option.some_bind,
          Option.pure_def, Option.some.injEq] at h
        subst h
        intro sl hsl
        rcases List.mem_append.mp hsl with h1 | h2
        · have hr := hrules rule (List.mem_cons_self rule rest)
          have hb := slotLoop_slot_bounds bks dur rule.end_time hdur1 hdur2 hr.2
            fuel rule.start_time (Nat.le_of_lt hr.1) s hs sl h1
          exact ⟨hb.1, rule, List.mem_cons_self rule rest, hb.2⟩
        · have hrest := ih o hdur1 hdur2
            (fun r hr => hrules r (List.mem_cons_of_mem rule hr)) ho sl h2
          obtain ⟨hlen, r, hrin, hle⟩ := hrest
          exact ⟨hlen, r, List.mem_cons_of_mem rule hrin, hle⟩

/-- Witness for C6's theorem at a concrete input: the final slot of the
09:00-12:00 / 30-minute grid has length 30 and ends within the window. -/
theorem slot_duration_exact_within_day_witness :
    (Slot.mk 690 720 true).end_time - (Slot.mk 690 720 true).start_time = 30 ∧
    ∃ r ∈ [AvailabilityRule.mk 540 720], (Slot.mk 690 720 true).end_time ≤ r.end_time :=
  slot_duration_exact_within_day [⟨540, 720⟩] [] 30 1000
    [⟨540, 570, true⟩, ⟨570, 600, true⟩, ⟨600, 630, true⟩,
     ⟨630, 660, true⟩, ⟨660, 690, true⟩, ⟨690, 720, true⟩]
    (by decide) (by decide) (by decide) (by decide)
    ⟨690, 720, true⟩ (by decide)

/-- C7: every generated slot is marked `available = false` exactly when
some booked interval of the professional's non-cancelled bookings for the
date overlaps it in the half-open sense
`slot.start < b.end ∧ slot.end > b.start`, and `available = true`
otherwise. -/
theorem slot_availability_iff_overlap (rules : List AvailabilityRule)
    (bks : List BookedInterval) (dur fuel : Nat) (l : List Slot)
    (h : generateSlots rules bks dur fuel = some l) :
    ∀ sl ∈ l, (sl.available = false ↔
      ∃ b ∈ bks, sl.start_time < b.end_time ∧ sl.end_time > b.start_time) := by
  intro sl hsl
  have hav := mem_generateSlots_available rules bks dur fuel l h sl hsl
  rw [hav]
  simp [isBookedCheck, List.any_eq_true]

/-- Witness for C7's theorem: in the 09:00-10:00 grid with a 09:00-09:30
booking, the 09:00-09:30 slot is unavailable precisely because of the
overlap. -/
theorem slot_availability_iff_overlap_witness :
    ((Slot.mk 540 570 false).available = false ↔
      ∃ b ∈ [BookedInterval.mk 540 570],
        (Slot.mk 540 570 false).start_time < b.end_time ∧
        (Slot.mk 540 570 false).end_time > b.start_time) :=
  slot_availability_iff_overlap [⟨540, 600⟩] [⟨540, 570⟩] 30 100
    [⟨540, 570, false⟩, ⟨570, 600, true⟩] (by decide) ⟨540, 570, false⟩ (by decide)

/-- C10: the slot-generation loop terminates (some finite fuel suffices)
for every `durationMinutes ≥ 1`; the hypothesis is necessary, since for
`durationMinutes = 0` the loop variable never advances and the loop runs
forever whenever the window is non-empty (`start < end < 1440`); and the
only guard on a duration anywhere in the system — the
`createServiceSchema` bound `duration_minutes ∈ [5, 480]` — implies the
termination hypothesis. -/
theorem slot_loop_termination_iff_positive_duration :
    (∀ (bks : List BookedInterval) (dur endM cur : Nat), 1 ≤ dur →
      ∃ fuel, (slotLoop bks dur endM fuel cur).isSome = true) ∧
    (∀ (bks : List BookedInterval) (endM cur : Nat), cur < endM → endM < 1440 →
      ∀ fuel, slotLoop bks 0 endM fuel cur = none) ∧
    (∀ n : Nat, durationMinutesValid n = true → 1 ≤ n) := by
  refine ⟨?_, ?_, ?_⟩
  · intro bks dur endM cur hdur
    exact exists_fuel_slotLoop_isSome bks dur endM cur hdur
  · intro bks endM cur h1 h2
    exact slotLoop_zero_duration bks endM cur h1 h2
  · intro n h
    simp only [durationMinutesValid, Bool.and_eq_true, decide_eq_true_eq] at h
    omega

/-- Witness for C10's theorem at concrete inputs: the 09:00-12:00 window
with a 30-minute duration terminates; with duration 0 it never does; and
the schema-minimal duration 5 satisfies the termination hypothesis. -/
theorem slot_loop_termination_iff_positive_duration_witness :
    (∃ fuel, (slotLoop [] 30 720 fuel 540).isSome = true) ∧
    slotLoop [] 0 720 7 540 = none ∧
    1 ≤ 5 :=
  ⟨slot_loop_termination_iff_positive_duration.1 [] 30 720 540 (by decide),
   slot_loop_termination_iff_positive_duration.2.1 [] 720 540 (by decide) (by decide) 7,
   slot_loop_termination_iff_positive_duration.2.2 5 (by decide)⟩

/-! ### Claim theorems: reservation and lifecycle -/

/-- A store with one pending 10:00-10:30 booking of professional 7 on
date 100 and one active service 5, used as a concrete conflict case. -/
def conflictStore : Store :=
  ⟨[], [⟨5, true⟩], [⟨9, 7, 5, none, 100, 600, 630, .pending⟩]⟩

/-- A reservation request overlapping `conflictStore`'s booking. -/
def conflictRequest : ReserveRequest :=
  ⟨7, 5, 100, 615, 645, none, none⟩

/-- C2: sequential semantics of booking creation (both the staff route
`POST /api/bookings` and the public route `POST /api/public/bookings`),
with the referenced service existing (and active) and the store's insert
succeeding: if some existing non-cancelled booking of the professional on
the date satisfies `start_time < e ∧ end_time > s`, the request returns
the 409 `SlotConflict` response and leaves the store untouched; otherwise
it inserts exactly one new booking row for that professional and date
with the requested interval and status `'pending'`, and returns it. -/
theorem reserve_sequential_spec (st : Store) (r : ReserveRequest) (uid bid : Nat)
    (hsvc : st.services.any (fun s => decide (s.id = r.service_id) && s.is_active) = true) :
    (hasConflict st.bookings r.professional_id r.date r.start_time r.end_time = true →
      createBooking st r uid bid true = (.slotConflict, st) ∧
      createPublicBooking st r uid bid true = (.slotConflict, st)) ∧
    (hasConflict st.bookings r.professional_id r.date r.start_time r.end_time = false →
      (∃ b : BookingRow,
        (createBooking st r uid bid true).1 = .created b ∧
        b.professional_id = r.professional_id ∧ b.date = r.date ∧
        b.start_time = r.start_time ∧ b.end_time = r.end_time ∧
        b.status = .pending ∧
        (createBooking st r uid bid true).2.bookings = st.bookings ++ [b]) ∧
      (∃ b : BookingRow,
        (createPublicBooking st r uid bid true).1 = .created b ∧
        b.professional_id = r.professional_id ∧ b.date = r.date ∧
        b.start_time = r.start_time ∧ b.end_time = r.end_time ∧
        b.status = .pending ∧
        (createPublicBooking st r uid bid true).2.bookings = st.bookings ++ [b])) := by
  have hsvc1 : st.services.any (fun s => decide (s.id = r.service_id)) = true := by
    rw [List.any_eq_true] at hsvc ⊢
    obtain ⟨s, hsin, hp⟩ := hsvc
    rw [Bool.and_eq_true] at hp
    exact ⟨s, hsin, hp.1⟩
  constructor
  · intro hconf
    constructor
    · simp [createBooking, hsvc1, hconf]
    · simp [createPublicBooking, hsvc, hconf]
  · intro hconf
    constructor
    · rcases hu : r.userId with _ | uid0
      · rcases he : r.client_email with _ | email
        · exact ⟨⟨bid, r.professional_id, r.service_id, none, r.date, r.start_time,
            r.end_time, .pending⟩, by simp [createBooking, hsvc1, hconf, hu, he]⟩
        · rcases hf : st.users.find? (fun u => u.email == email) with _ | u
          · exact ⟨⟨bid, r.professional_id, r.service_id, some uid, r.date, r.start_time,
              r.end_time, .pending⟩, by simp [createBooking, hsvc1, hconf, hu, he, hf]⟩
          · exact ⟨⟨bid, r.professional_id, r.service_id, some u.id, r.date, r.start_time,
              r.end_time, .pending⟩, by simp [createBooking, hsvc1, hconf, hu, he, hf]⟩
      · exact ⟨⟨bid, r.professional_id, r.service_id, some uid0, r.date, r.start_time,
          r.end_time, .pending⟩, by simp [createBooking, hsvc1, hconf, hu]⟩
    · rcases he : r.client_email with _ | email
      · exact ⟨⟨bid, r.professional_id, r.service_id, none, r.date, r.start_time,
          r.end_time, .pending⟩, by simp [createPublicBooking, hsvc, hconf, he]⟩
      · rcases hf : st.users.find? (fun u => u.email == email) with _ | u
        · exact ⟨⟨bid, r.professional_id, r.service_id, some uid, r.date, r.start_time,
            r.end_time, .pending⟩, by simp [createPublicBooking, hsvc, hconf, he, hf]⟩
        · exact ⟨⟨bid, r.professional_id, r.service_id, some u.id, r.date, r.start_time,
            r.end_time, .pending⟩, by simp [createPublicBooking, hsvc, hconf, he, hf]⟩

/-- Witness for C2's theorem: against `conflictStore`, the overlapping
request 10:15-10:45 gets `SlotConflict` from both routes and the store is
unchanged. -/
theorem reserve_sequential_spec_witness :
    createBooking conflictStore conflictRequest 42 43 true =
      (.slotConflict, conflictStore) ∧
    createPublicBooking conflictStore conflictRequest 42 43 true =
      (.slotConflict, conflictStore) :=
  (reserve_sequential_spec conflictStore conflictRequest 42 43 (by decide)).1 (by decide)

/-- C9 counterexample: against an empty store with active service 5, a
public guest reservation whose booking insert fails leaves the freshly
inserted guest user row behind — the store is NOT restored to its state
before the request, because the guest-user insert and the booking insert
are separate un-transacted statements. -/
theorem failed_insert_leaves_guest_user :
    createPublicBooking ⟨[], [⟨5, true⟩], []⟩ ⟨7, 5, 100, 600, 630, none, some "guest"⟩
        42 43 false =
      (.insertFailed, ⟨[⟨42, "guest"⟩], [⟨5, true⟩], []⟩) ∧
    (⟨[⟨42, "guest"⟩], [⟨5, true⟩], []⟩ : Store) ≠ ⟨[], [⟨5, true⟩], []⟩ := by
  constructor <;> decide

/-- C9 (amended): a reservation whose booking insert fails never leaves a
partial booking row — the bookings table is exactly as before the request
— but it is not all-or-nothing: the guest-user insert issued before the
failing booking insert is not rolled back, so the users table either is
unchanged or has gained exactly one guest row. -/
theorem reserve_failure_effects (st : Store) (r : ReserveRequest) (uid bid : Nat) :
    (createBooking st r uid bid false).2.bookings = st.bookings ∧
    ((createBooking st r uid bid false).2.users = st.users ∨
      ∃ u : UserRow, (createBooking st r uid bid false).2.users = st.users ++ [u]) ∧
    (createPublicBooking st r uid bid false).2.bookings = st.bookings ∧
    ((createPublicBooking st r uid bid false).2.users = st.users ∨
      ∃ u : UserRow, (createPublicBooking st r uid bid false).2.users = st.users ++ [u]) := by
  refine ⟨?_, ?_, ?_, ?_⟩
  · simp only [createBooking]
    split
    · rfl
    · split
      · rfl
      · rfl
  · simp only [createBooking]
    split
    · left; rfl
    · split
      · left; rfl
      · rcases hu : r.userId with _ | uid0
        · rcases he : r.client_email with _ | email
          · simp [hu, he]
          · rcases hf : st.users.find? (fun u => u.email == email) with _ | u
            · simp only [hu, he, hf]
              right
              exact ⟨⟨uid, email⟩, rfl⟩
            · simp [hu, he, hf]
        · simp [hu]
  · simp only [createPublicBooking]
    split
    · rfl
    · split
      · rfl
      · rfl
  · simp only [createPublicBooking]
    split
    · left; rfl
    · split
      · left; rfl
      · rcases he : r.client_email with _ | email
        · simp [he]
        · rcases hf : st.users.find? (fun u => u.email == email) with _ | u
          · simp only [he, hf]
            right
            exact ⟨⟨uid, email⟩, rfl⟩
          · simp [he, hf]

/-- C8 counterexample: `PATCH /api/bookings/:id` with body
`{status: 'pending'}` moves a `completed` (terminal) booking back to
`pending`: the update's WHERE clause has no condition on the current
status, so there IS a transition out of a terminal state. -/
theorem patch_escapes_terminal_state :
    updateBookingStatus ⟨[], [], [⟨1, 7, 5, none, 100, 600, 630, .completed⟩]⟩ 1 .pending =
      ⟨[], [], [⟨1, 7, 5, none, 100, 600, 630, .pending⟩]⟩ ∧
    BookingStatus.completed ≠ BookingStatus.pending := by
  constructor <;> decide

/-- C8 (amended): only the dedicated confirm and cancel endpoints guard
on the current status — confirm never changes a row whose status is not
`pending`, and cancel never changes a row whose status is `cancelled` or
`completed`.  The generic status update (PATCH) and reschedule apply to a
row in any state (see the counterexample), and cancel does apply to
`no_show` rows, so transitions out of terminal states remain possible
through those operations. -/
theorem status_guards_confirm_cancel :
    (∀ (bid : Nat) (b : BookingRow), b.status ≠ .pending → confirmRow bid b = b) ∧
    (∀ (bid : Nat) (b : BookingRow),
      b.status = .cancelled ∨ b.status = .completed → cancelRow bid b = b) := by
  constructor
  · intro bid b hb
    unfold confirmRow
    rw [if_neg]
    rintro ⟨-, h2⟩
    exact hb h2
  · intro bid b hb
    unfold cancelRow
    rw [if_neg]
    rintro ⟨-, h2, h3⟩
    rcases hb with hb | hb
    · exact h2 hb
    · exact h3 hb

/-- Witness for C8's theorem: both guards leave a completed booking row
untouched. -/
theorem status_guards_confirm_cancel_witness :
    confirmRow 1 ⟨1, 7, 5, none, 100, 600, 630, .completed⟩ =
      ⟨1, 7, 5, none, 100, 600, 630, .completed⟩ ∧
    cancelRow 1 ⟨1, 7, 5, none, 100, 600, 630, .completed⟩ =
      ⟨1, 7, 5, none, 100, 600, 630, .completed⟩ :=
  ⟨status_guards_confirm_cancel.1 1 ⟨1, 7, 5, none, 100, 600, 630, .completed⟩ (by decide),
   status_guards_confirm_cancel.2 1 ⟨1, 7, 5, none, 100, 600, 630, .completed⟩
     (Or.inr (by decide))⟩

/-- C1 counterexample: the interleaving check0, check1, insert0, insert1
of two identical 10:00-10:30 requests for professional 7 on date 100 lets
BOTH requests commit: each conflict check runs before either insert, so
both see an empty booking set, and the store ends with two overlapping
non-cancelled bookings — the second row conflicts with the first by the
system's own conflict predicate. -/
theorem booking_race_double_commit :
    runSchedule ⟨⟨7, 5, 100, 600, 630, none, none⟩, 101⟩
        ⟨⟨7, 5, 100, 600, 630, none, none⟩, 102⟩
        [false, true, false, true] [] .ready .ready =
      ([⟨101, 7, 5, none, 100, 600, 630, .pending⟩,
        ⟨102, 7, 5, none, 100, 600, 630, .pending⟩], .committed, .committed) ∧
    hasConflict [⟨101, 7, 5, none, 100, 600, 630, .pending⟩] 7 100 600 630 = true := by
  constructor <;> decide

/-- C1 (amended): the conflict check and the insert of a reservation
request are two separate atomic store operations with no transaction,
lock or exclusion constraint between them, so mutual exclusion holds only
for serial executions: when one request's check and insert both run
before the other request starts, at most one of two overlapping requests
for the same professional and date commits — the second observes the
first's row and is conflicted.  (For the interleaving in which both
checks precede both inserts, both commit; see the counterexample.) -/
theorem booking_serial_mutual_exclusion (bookings : List BookingRow) (c0 c1 : ThreadCtx)
    (hpid : c0.req.professional_id = c1.req.professional_id)
    (hdate : c0.req.date = c1.req.date)
    (ho1 : c0.req.start_time < c1.req.end_time)
    (ho2 : c1.req.start_time < c0.req.end_time) :
    ¬ ((runSchedule c0 c1 [false, false, true, true] bookings .ready .ready).2.1 =
          .committed ∧
       (runSchedule c0 c1 [false, false, true, true] bookings .ready .ready).2.2 =
          .committed) := by
  rintro ⟨h0, h1⟩
  cases hok : hasConflict bookings c0.req.professional_id c0.req.date
      c0.req.start_time c0.req.end_time with
  | true =>
    simp [runSchedule, threadStep, hok] at h0
  | false =>
    have hc1 : hasConflict (bookings ++ [insertedRow c0]) c1.req.professional_id
        c1.req.date c1.req.start_time c1.req.end_time = true := by
      unfold hasConflict
      rw [List.any_append, Bool.or_eq_true]
      right
      simp [insertedRow, hpid, hdate, ho1, ho2]
    simp [runSchedule, threadStep, hok, hc1] at h1

/-- Witness for C1's theorem: two overlapping concrete requests run
serially; the claim that both committed is refuted. -/
theorem booking_serial_mutual_exclusion_witness :
    ¬ ((runSchedule ⟨⟨7, 5, 100, 600, 630, none, none⟩, 101⟩
          ⟨⟨7, 5, 100, 615, 645, none, none⟩, 102⟩
          [false, false, true, true] [] .ready .ready).2.1 = .committed ∧
       (runSchedule ⟨⟨7, 5, 100, 600, 630, none, none⟩, 101⟩
          ⟨⟨7, 5, 100, 615, 645, none, none⟩, 102⟩
          [false, false, true, true] [] .ready .ready).2.2 = .committed) :=
  booking_serial_mutual_exclusion [] ⟨⟨7, 5, 100, 600, 630, none, none⟩, 101⟩
    ⟨⟨7, 5, 100, 615, 645, none, none⟩, 102⟩ rfl rfl (by decide) (by decide)
